import Mathlib

/-!
Verification development for the Gemini-HFT-System paper-trading bot.

The three core stages are embedded shallowly:
* `execute_buy`, `execute_sell`, `execute_cycle` — src/services/execution_engine.py
* `rotate_model`, `rotate_api`, `handleFailure`, `parse_response`, `get_command`
  — src/services/gemini_manager.py
* `targetColumn`, `train_and_predict` — src/services/quant_engine.py

Money amounts and prices are modelled as rationals (`ℚ`), share quantities as
integers (`ℤ`), timestamps as optional strings (a JSON field or DB column may
be absent/NULL).  Database effects are modelled as an explicit list of writes.
-/

namespace HFT

/-! ## Execution engine (src/services/execution_engine.py) -/

/-- The single live portfolio record: `{balance, positions, last_trade_time}`
as returned by `db.get_portfolio()`. -/
structure Portfolio where
  balance : ℚ
  positions : ℤ
  last_trade_time : Option String
deriving DecidableEq, Repr

/-- The trade-signal JSON record as read by `load_signal`; the code accesses
it with `signal.get('signal')`, `signal.get('timestamp')`,
`signal.get('confidence', 0)`, so each field may be absent. -/
structure TSignal where
  signal : Option String
  timestamp : Option String
  confidence : ℚ
deriving DecidableEq, Repr

/-- One row appended to the trade log by `db.log_trade(action, price, qty, balance)`. -/
structure TradeEntry where
  action : String
  price : ℚ
  qty : ℤ
  resulting_balance : ℚ
deriving DecidableEq, Repr

/-- A database mutation performed during one execution cycle: either a
trade-log append or the single-row portfolio upsert. -/
inductive DbWrite
  | logTrade (e : TradeEntry)
  | updatePortfolio (balance : ℚ) (positions : ℤ) (last_trade_time : Option String)
deriving DecidableEq, Repr

/-- `execute_buy(db, balance, positions, price, timestamp)`:
if `balance <= price` return unchanged with `False`; otherwise buy
`qty = int(balance // price)` shares, log the trade and upsert the portfolio.
Returns (new_balance, new_positions, executed, db writes). -/
def execute_buy (balance : ℚ) (positions : ℤ) (price : ℚ) (timestamp : Option String) :
    ℚ × ℤ × Bool × List DbWrite :=
  if balance ≤ price then (balance, positions, false, [])
  else
    let qty : ℤ := ⌊balance / price⌋
    let cost : ℚ := qty * price
    let new_balance := balance - cost
    let new_positions := positions + qty
    (new_balance, new_positions, true,
      [DbWrite.logTrade ⟨"BUY", price, qty, new_balance⟩,
       DbWrite.updatePortfolio new_balance new_positions timestamp])

/-- `execute_sell(db, balance, positions, price, timestamp)`:
if `positions <= 0` return unchanged with `False`; otherwise liquidate the
whole position at `price`, log the trade and upsert the portfolio. -/
def execute_sell (balance : ℚ) (positions : ℤ) (price : ℚ) (timestamp : Option String) :
    ℚ × ℤ × Bool × List DbWrite :=
  if positions ≤ 0 then (balance, positions, false, [])
  else
    let revenue : ℚ := positions * price
    let new_balance := balance + revenue
    (new_balance, 0, true,
      [DbWrite.logTrade ⟨"SELL", price, positions, new_balance⟩,
       DbWrite.updatePortfolio new_balance 0 timestamp])

/-- The conceptual state reached by one pass of the `run` loop body
(the spec names the four paths IDLE / STALE_SIGNAL / GATED / ACTING). -/
inductive CycleResult
  | IDLE
  | STALE_SIGNAL
  | GATED
  | ACTING
deriving DecidableEq, Repr

/-- Outcome of one execution cycle: the portfolio as stored in the database
afterwards, the database writes performed, and the path taken. -/
structure CycleOut where
  portfolio : Portfolio
  writes : List DbWrite
  result : CycleResult
deriving DecidableEq, Repr

/-- One pass of the `run` loop body of the execution engine, as a pure
function of the snapshot it reads: the portfolio, the optional signal, the
optional current price and the manager action string.
`if not signal or not price` treats a missing signal, a missing price and a
price of `0.0` (falsy float) alike; the anti-spam guard
(`sig_time == last_trade`) precedes the manager `PAUSE` check, which precedes
the trade dispatch (`BUY` needs `balance > price`, `SELL` needs
`positions > 0`). -/
def execute_cycle (p : Portfolio) (signal : Option TSignal) (price : Option ℚ)
    (managerAction : String) : CycleOut :=
  match signal, price with
  | none, _ => ⟨p, [], CycleResult.IDLE⟩
  | some _, none => ⟨p, [], CycleResult.IDLE⟩
  | some sig, some pr =>
    if pr = 0 then ⟨p, [], CycleResult.IDLE⟩
    else if sig.timestamp = p.last_trade_time then ⟨p, [], CycleResult.STALE_SIGNAL⟩
    else if managerAction = "PAUSE" then ⟨p, [], CycleResult.GATED⟩
    else if sig.signal = some "BUY" ∧ pr < p.balance then
      let r := execute_buy p.balance p.positions pr sig.timestamp
      ⟨⟨r.1, r.2.1, sig.timestamp⟩, r.2.2.2, CycleResult.ACTING⟩
    else if sig.signal = some "SELL" ∧ 0 < p.positions then
      let r := execute_sell p.balance p.positions pr sig.timestamp
      ⟨⟨r.1, r.2.1, sig.timestamp⟩, r.2.2.2, CycleResult.ACTING⟩
    else ⟨p, [], CycleResult.ACTING⟩

/-! ## Risk advisory client (src/services/gemini_manager.py) -/

/-- The advisory pool configuration: the lengths of `config.GEMINI_API_KEYS`
and `config.GEMINI_MODELS` (the rotation logic depends only on the lengths). -/
structure GmCfg where
  numKeys : ℕ
  numModels : ℕ
deriving DecidableEq, Repr

/-- The module-global rotation state `(current_api_idx, current_model_idx)`. -/
structure RotSt where
  api : ℕ
  model : ℕ
deriving DecidableEq, Repr

/-- `rotate_model()`: `current_model_idx = (current_model_idx + 1) % len(GEMINI_MODELS)`. -/
def rotate_model (cfg : GmCfg) (s : RotSt) : RotSt :=
  ⟨s.api, (s.model + 1) % cfg.numModels⟩

/-- `rotate_api()`: `current_api_idx = (current_api_idx + 1) % len(GEMINI_API_KEYS)`
and `current_model_idx = 0`. -/
def rotate_api (cfg : GmCfg) (s : RotSt) : RotSt :=
  ⟨(s.api + 1) % cfg.numKeys, 0⟩

/-- Python `str.lower()` (ASCII, which covers every string the code tests). -/
def pyLower (s : String) : String := String.mk (s.toList.map Char.toLower)

/-- Python `str.upper()` (ASCII, which covers every action token compared). -/
def pyUpper (s : String) : String := String.mk (s.toList.map Char.toUpper)

/-- Contiguous-substring test on character lists (Python `k in msg`). -/
def containsSub (pat : List Char) : List Char → Bool
  | [] => pat.isEmpty
  | c :: rest => List.isPrefixOf pat (c :: rest) || containsSub pat rest

/-- `is_rate_limit(msg)`: any of the substrings rate, quota, 429, exhausted
occurs in the lower-cased message. -/
def is_rate_limit (msg : String) : Bool :=
  ["rate", "quota", "429", "exhausted"].any
    (fun k => containsSub k.toList (pyLower msg).toList)

/-- `is_not_found(msg)`: 404 or not found occurs in the lower-cased message. -/
def is_not_found (msg : String) : Bool :=
  containsSub "404".toList (pyLower msg).toList ||
  containsSub "not found".toList (pyLower msg).toList

/-- The `except` branch of the attempt loop in `get_command`, as a pure
transition on the rotation state: not-found errors rotate the model;
rate-limit errors rotate the model while one remains, then rotate the API key
while one remains, and otherwise end the sweep (`none`, the code returns
`('CONTINUE', 'All APIs exhausted')`); every other error rotates the model. -/
def handleFailure (cfg : GmCfg) (s : RotSt) (msg : String) : Option RotSt :=
  if is_not_found msg then some (rotate_model cfg s)
  else if is_rate_limit msg then
    if s.model < cfg.numModels - 1 then some (rotate_model cfg s)
    else if s.api < cfg.numKeys - 1 then some (rotate_api cfg s)
    else none
  else some (rotate_model cfg s)

/-- The failure classes the spec speaks of: unavailable (not-found),
quota-exhausted (rate limit), and any other error. -/
inductive ErrClass
  | notFound
  | rateLimit
  | other
deriving DecidableEq, Repr

/-- The class assigned to an exception message by the attempt loop: the
not-found test is applied first, then the rate-limit test. -/
def classifyError (msg : String) : ErrClass :=
  if is_not_found msg then ErrClass.notFound
  else if is_rate_limit msg then ErrClass.rateLimit
  else ErrClass.other

/-- Claim C7's dictated transition, written from the claim's words: a
not-found error advances to the next model under the same credential; a
quota-exhausted error advances to the next model if any remain under the
current credential and otherwise advances to the next credential with the
model index reset to the first model; any other error advances to the next
model.  (The next credential after the last is read cyclically, matching the
code's own `rotate_api` arithmetic.) -/
def specDictatedFailStep (cfg : GmCfg) (s : RotSt) (e : ErrClass) : Option RotSt :=
  match e with
  | ErrClass.notFound => some ⟨s.api, (s.model + 1) % cfg.numModels⟩
  | ErrClass.other => some ⟨s.api, (s.model + 1) % cfg.numModels⟩
  | ErrClass.rateLimit =>
    if s.model + 1 < cfg.numModels then some ⟨s.api, s.model + 1⟩
    else some ⟨(s.api + 1) % cfg.numKeys, 0⟩

/-- The amended transition: as dictated by claim C7 except that a
quota-exhausted error at the last model of the last credential performs no
rotation at all — it ends the sweep (`none`). -/
def specAmendedFailStep (cfg : GmCfg) (s : RotSt) (e : ErrClass) : Option RotSt :=
  match e with
  | ErrClass.notFound => some ⟨s.api, (s.model + 1) % cfg.numModels⟩
  | ErrClass.other => some ⟨s.api, (s.model + 1) % cfg.numModels⟩
  | ErrClass.rateLimit =>
    if s.model + 1 < cfg.numModels then some ⟨s.api, s.model + 1⟩
    else if s.api + 1 < cfg.numKeys then some ⟨s.api + 1, 0⟩
    else none

/-- A JSON value as produced by the Python `json` module, restricted to the
scalar shapes relevant here (the extracted brace chunk can never contain a
nested object, since it has no inner closing brace). -/
inductive JVal
  | str (s : String)
  | num (q : ℚ)
  | bool (b : Bool)
  | null
deriving DecidableEq, Repr

/-- Opening brace character. -/
def lbrace : Char := Char.ofNat 123

/-- Closing brace character. -/
def rbrace : Char := Char.ofNat 125

/-- Single-quote character. -/
def apos : Char := Char.ofNat 39

/-- Double-quote character. -/
def quot : Char := Char.ofNat 34

/-- The search for the first match of the regular expression used in
`parse_response` (an opening brace, one or more non-closing-brace characters,
a closing brace): at the leftmost opening brace followed by at least one
other character before the next closing brace, the match runs to that first
closing brace; otherwise the search continues one position to the right. -/
def braceMatch : List Char → Option (List Char)
  | [] => none
  | c :: rest =>
    if c = lbrace then
      let body := rest.takeWhile (fun d => d ≠ rbrace)
      if body.length < rest.length ∧ body ≠ [] then
        some (lbrace :: body ++ [rbrace])
      else braceMatch rest
    else braceMatch rest

/-- The `.replace("'", '"')` applied to the matched chunk before JSON parsing. -/
def replaceApos (l : List Char) : List Char :=
  l.map (fun c => if c = apos then quot else c)

/-- A Python dict as a key-lookup function (`'k' in d` = `(d k).isSome`,
`d['k']` = the value, `d.get('k', v)` = `(d k).getD v`). -/
def PyDict : Type := String → Option JVal

/-- `parse_response(text)`.  `loads` stands for `json.loads` on the
brace-extracted, quote-normalised chunk: `none` models `json.loads` raising on
invalid JSON (any object it returns here is a dict, as the chunk starts with a
brace).  Paths: no regex match or missing/invalid `action` key fall through to
`('CONTINUE', 'Parse fallback')`; a raised exception — `json.loads` failing,
or `.upper()` on a non-string `action` — is caught as
`('CONTINUE', 'Parse error')`; a valid CONTINUE/PAUSE action returns it with
`data.get('reason', '')`. -/
def parse_response (loads : String → Option PyDict) (text : String) : String × JVal :=
  match braceMatch text.toList with
  | none => ("CONTINUE", JVal.str "Parse fallback")
  | some chunk =>
    match loads (String.mk (replaceApos chunk)) with
    | none => ("CONTINUE", JVal.str "Parse error")
    | some data =>
      match data "action" with
      | none => ("CONTINUE", JVal.str "Parse fallback")
      | some (JVal.str a) =>
        let action := pyUpper a
        if action = "CONTINUE" ∨ action = "PAUSE" then
          (action, (data "reason").getD (JVal.str ""))
        else ("CONTINUE", JVal.str "Parse fallback")
      | some _ => ("CONTINUE", JVal.str "Parse error")

/-- Outcome of one advisory request attempt: a response text, or an exception
carrying its message string. -/
inductive GmOutcome
  | success (text : String)
  | failure (msg : String)
deriving DecidableEq, Repr

/-- Result of one `get_command` evaluation: the returned (action, reason)
pair, the rotation state left in the module globals, and the list of rotation
states at which a request was actually issued (one per attempt, in order). -/
structure GmRun where
  result : String × JVal
  finalState : RotSt
  attempts : List RotSt
deriving Repr

/-- The attempt loop of `get_command`: `fuel` is the number of remaining loop
iterations, `i` numbers the attempts so that `ω i` is the outcome of the
`i`-th issued request.  A successful request returns `parse_response`
immediately; a failure is classified by `handleFailure`; when the loop index
is spent the code returns `('CONTINUE', 'Failed')`. -/
def getCommandAux (cfg : GmCfg) (loads : String → Option PyDict) (ω : ℕ → GmOutcome) :
    ℕ → ℕ → RotSt → GmRun
  | _, 0, s => ⟨("CONTINUE", JVal.str "Failed"), s, []⟩
  | i, fuel + 1, s =>
    match ω i with
    | GmOutcome.success t => ⟨parse_response loads t, s, [s]⟩
    | GmOutcome.failure msg =>
      match handleFailure cfg s msg with
      | some s' =>
        let rest := getCommandAux cfg loads ω (i + 1) fuel s'
        ⟨rest.result, rest.finalState, s :: rest.attempts⟩
      | none => ⟨("CONTINUE", JVal.str "All APIs exhausted"), s, [s]⟩

/-- `get_command(...)`: one evaluation sweep, bounded by
`attempts = len(GEMINI_API_KEYS) * len(GEMINI_MODELS)` loop iterations,
starting from the current module-global rotation state `s`. -/
def get_command (cfg : GmCfg) (loads : String → Option PyDict) (ω : ℕ → GmOutcome)
    (s : RotSt) : GmRun :=
  getCommandAux cfg loads ω 0 (cfg.numKeys * cfg.numModels) s

/-! ## Quant engine (src/services/quant_engine.py) -/

/-- One row of the engineered feature dataframe handed to
`train_and_predict` (after `engineer_features`): the feature columns
RSI, SMA, Close, High, Low, Volume plus the row timestamp. -/
structure FRow where
  datetime : String
  close : ℚ
  high : ℚ
  low : ℚ
  volume : ℚ
  rsi : ℚ
  sma : ℚ
deriving DecidableEq, Repr

/-- `series.shift(-1)`: element `i` becomes element `i+1`, the last becomes
missing (NaN, modelled as `none`). -/
def shiftNeg1 (xs : List ℚ) : List (Option ℚ) :=
  xs.tail.map some ++ [none]

/-- The `Target` column: `(close.shift(-1) > close).astype(int)` — `1` where
the next close is strictly greater, else `0` (a NaN comparison is `False`). -/
def targetColumn (closes : List ℚ) : List ℕ :=
  (closes.zip (shiftNeg1 closes)).map fun p =>
    match p.2 with
    | some nxt => if p.1 < nxt then 1 else 0
    | none => 0

/-- The signal dict built by `train_and_predict`. -/
structure QSignal where
  timestamp : String
  signal : String
  confidence : ℚ
  rsi : ℚ
deriving DecidableEq, Repr

/-- `train_and_predict(df)` with the XGBoost classifier abstracted as a
function from the labeled training rows to a `(predicted class, probability
of that class)` pair on the latest row: build the `Target` column, drop the
final row (`df_train[:-1]`), return `None` when fewer than 50 labeled rows
remain, otherwise fit/predict and emit the signal dict for the latest row
(`BUY` for class 1, else `SELL`). -/
def train_and_predict (classifier : List (FRow × ℕ) → FRow → ℕ × ℚ)
    (df : List FRow) : Option QSignal :=
  let targets := targetColumn (df.map (fun r => r.close))
  let df_train := (df.zip targets).dropLast
  if df_train.length < 50 then none
  else
    match df.getLast? with
    | none => none
    | some latest =>
      let pc := classifier df_train latest
      some ⟨latest.datetime, if pc.1 = 1 then "BUY" else "SELL", pc.2, latest.rsi⟩

/-! ## Theorems: execution engine -/

/-- Claim C1: for every Portfolio state with balance ≥ 0 and position_qty ≥ 0
and every positive current price, after one Execution cycle (whether it buys,
sells, or does nothing) the resulting portfolio still has balance ≥ 0 and
position_qty ≥ 0. -/
theorem C1_portfolio_invariant (p : Portfolio) (signal : Option TSignal) (pr : ℚ)
    (mgr : String) (hb : 0 ≤ p.balance) (hq : 0 ≤ p.positions) (hpr : 0 < pr) :
    0 ≤ (execute_cycle p signal (some pr) mgr).portfolio.balance ∧
    0 ≤ (execute_cycle p signal (some pr) mgr).portfolio.positions := by
  have hfloor_mul : (⌊p.balance / pr⌋ : ℚ) * pr ≤ p.balance := by
    have h1 : (⌊p.balance / pr⌋ : ℚ) ≤ p.balance / pr := Int.floor_le _
    have h2 : (⌊p.balance / pr⌋ : ℚ) * pr ≤ (p.balance / pr) * pr :=
      mul_le_mul_of_nonneg_right h1 hpr.le
    rwa [div_mul_cancel₀ _ (ne_of_gt hpr)] at h2
  have hfloor_nonneg : 0 ≤ ⌊p.balance / pr⌋ :=
    Int.floor_nonneg.mpr (div_nonneg hb hpr.le)
  match signal with
  | none => exact ⟨hb, hq⟩
  | some sig =>
    simp only [execute_cycle, execute_buy, execute_sell]
    split_ifs <;> simp_all
    all_goals
      first
      | exact ⟨hb, hq⟩
      | linarith [hfloor_mul, hfloor_nonneg]
      | linarith [mul_nonneg (show (0 : ℚ) ≤ (p.positions : ℚ) by exact_mod_cast hq) hpr.le]

/-- Witness for C1 at a concrete state. -/
theorem C1_witness :
    0 ≤ (execute_cycle ⟨100000, 0, none⟩ (some ⟨some "BUY", some "t1", 0⟩)
          (some 100) "CONTINUE").portfolio.balance ∧
    0 ≤ (execute_cycle ⟨100000, 0, none⟩ (some ⟨some "BUY", some "t1", 0⟩)
          (some 100) "CONTINUE").portfolio.positions :=
  C1_portfolio_invariant ⟨100000, 0, none⟩ (some ⟨some "BUY", some "t1", 0⟩) 100
    "CONTINUE" (by norm_num) (by norm_num) (by norm_num)

/-- Claim C2: when the signal timestamp equals the stored
`last_trade_time`, the cycle performs no mutation at all — the portfolio is
returned unchanged and no database write happens — regardless of the signal
decision or the manager action, and the path taken is STALE_SIGNAL. -/
theorem C2_stale_signal_no_mutation (p : Portfolio) (sig : TSignal) (pr : ℚ)
    (mgr : String) (hpr : pr ≠ 0) (hst : sig.timestamp = p.last_trade_time) :
    execute_cycle p (some sig) (some pr) mgr = ⟨p, [], CycleResult.STALE_SIGNAL⟩ := by
  simp [execute_cycle, hpr, hst]

/-- Witness for C2: a stale BUY signal leaves the portfolio untouched. -/
theorem C2_witness :
    execute_cycle ⟨100000, 5, some "t1"⟩ (some ⟨some "BUY", some "t1", 0⟩)
      (some 100) "CONTINUE" = ⟨⟨100000, 5, some "t1"⟩, [], CycleResult.STALE_SIGNAL⟩ :=
  C2_stale_signal_no_mutation ⟨100000, 5, some "t1"⟩ ⟨some "BUY", some "t1", 0⟩ 100
    "CONTINUE" (by norm_num) rfl

/-- Claim C3: when the manager action is PAUSE the cycle never mutates the
portfolio or appends a trade-log entry, whatever the signal and price are. -/
theorem C3_pause_no_mutation (p : Portfolio) (signal : Option TSignal)
    (price : Option ℚ) :
    (execute_cycle p signal price "PAUSE").portfolio = p ∧
    (execute_cycle p signal price "PAUSE").writes = [] := by
  match signal, price with
  | none, _ => simp [execute_cycle]
  | some sig, none => simp [execute_cycle]
  | some sig, some pr =>
    simp only [execute_cycle]
    split_ifs <;> simp_all

/-- Claim C4: a BUY on a fresh signal with no PAUSE gate executes exactly when
`balance > price`, buying `⌊balance / price⌋` shares at total cost
quantity × price, leaving `balance − cost` and `positions + quantity`, with a
trade-log append and a portfolio upsert stamped with the signal timestamp;
with `balance ≤ price` it is a no-op. -/
theorem C4_buy_all_in (p : Portfolio) (sig : TSignal) (pr : ℚ) (mgr : String)
    (hfresh : sig.timestamp ≠ p.last_trade_time) (hm : mgr ≠ "PAUSE")
    (hsig : sig.signal = some "BUY") (h0 : pr ≠ 0) :
    (pr < p.balance →
      execute_cycle p (some sig) (some pr) mgr =
        ⟨⟨p.balance - ⌊p.balance / pr⌋ * pr, p.positions + ⌊p.balance / pr⌋, sig.timestamp⟩,
         [DbWrite.logTrade ⟨"BUY", pr, ⌊p.balance / pr⌋, p.balance - ⌊p.balance / pr⌋ * pr⟩,
          DbWrite.updatePortfolio (p.balance - ⌊p.balance / pr⌋ * pr)
            (p.positions + ⌊p.balance / pr⌋) sig.timestamp],
         CycleResult.ACTING⟩) ∧
    (p.balance ≤ pr →
      execute_cycle p (some sig) (some pr) mgr = ⟨p, [], CycleResult.ACTING⟩) := by
  constructor
  · intro hlt
    simp [execute_cycle, execute_buy, h0, hfresh, hm, hsig, hlt, not_le.mpr hlt]
  · intro hle
    simp [execute_cycle, execute_buy, h0, hfresh, hm, hsig, not_lt.mpr hle]

/-- Witness for C4, the spec scenario: balance 100000 at price 100 buys
1000 shares for 100000, leaving balance 0 and position 1000. -/
theorem C4_witness :
    execute_cycle ⟨100000, 0, none⟩ (some ⟨some "BUY", some "t1", 0⟩)
      (some 100) "CONTINUE" =
      ⟨⟨0, 1000, some "t1"⟩,
       [DbWrite.logTrade ⟨"BUY", 100, 1000, 0⟩,
        DbWrite.updatePortfolio 0 1000 (some "t1")],
       CycleResult.ACTING⟩ := by
  have h := (C4_buy_all_in ⟨100000, 0, none⟩ ⟨some "BUY", some "t1", 0⟩ 100 "CONTINUE"
    (by simp) (by simp) rfl (by norm_num)).1 (by norm_num)
  rw [h]
  norm_num

/-- Claim C5: a SELL on a fresh signal with no PAUSE gate executes exactly
when `positions > 0`, liquidating the whole position: revenue
positions × price, new balance = balance + revenue, new position 0, with a
trade-log append and a portfolio upsert stamped with the signal timestamp;
with `positions = 0` it is a no-op. -/
theorem C5_sell_full_liquidation (p : Portfolio) (sig : TSignal) (pr : ℚ) (mgr : String)
    (hfresh : sig.timestamp ≠ p.last_trade_time) (hm : mgr ≠ "PAUSE")
    (hsig : sig.signal = some "SELL") (h0 : pr ≠ 0) :
    (0 < p.positions →
      execute_cycle p (some sig) (some pr) mgr =
        ⟨⟨p.balance + p.positions * pr, 0, sig.timestamp⟩,
         [DbWrite.logTrade ⟨"SELL", pr, p.positions, p.balance + p.positions * pr⟩,
          DbWrite.updatePortfolio (p.balance + p.positions * pr) 0 sig.timestamp],
         CycleResult.ACTING⟩) ∧
    (p.positions = 0 →
      execute_cycle p (some sig) (some pr) mgr = ⟨p, [], CycleResult.ACTING⟩) := by
  constructor
  · intro hlt
    simp [execute_cycle, execute_sell, h0, hfresh, hm, hsig, hlt, not_le.mpr hlt]
  · intro hz
    simp [execute_cycle, execute_sell, h0, hfresh, hm, hsig, hz]

/-- Witness for C5, the spec scenario: position 1000 at price 105 yields
revenue 105000, new balance = old balance + 105000, position 0. -/
theorem C5_witness :
    execute_cycle ⟨500, 1000, none⟩ (some ⟨some "SELL", some "t2", 0⟩)
      (some 105) "CONTINUE" =
      ⟨⟨105500, 0, some "t2"⟩,
       [DbWrite.logTrade ⟨"SELL", 105, 1000, 105500⟩,
        DbWrite.updatePortfolio 105500 0 (some "t2")],
       CycleResult.ACTING⟩ := by
  have h := (C5_sell_full_liquidation ⟨500, 1000, none⟩ ⟨some "SELL", some "t2", 0⟩ 105
    "CONTINUE" (by simp) (by simp) rfl (by norm_num)).1 (by norm_num)
  rw [h]
  norm_num

/-! ## Theorems: risk advisory client -/

/-- Every value `parse_response` can return carries an action that is either
CONTINUE or PAUSE. -/
theorem parse_response_action (loads : String → Option PyDict) (text : String) :
    (parse_response loads text).1 = "CONTINUE" ∨ (parse_response loads text).1 = "PAUSE" := by
  unfold parse_response
  repeat' split
  all_goals
    first
    | (left; rfl)
    | (dsimp only
       split_ifs with h
       · simpa using h
       · left; rfl)

/-- The attempt loop issues at most `fuel` requests. -/
theorem getCommandAux_attempts_le (cfg : GmCfg) (loads : String → Option PyDict)
    (ω : ℕ → GmOutcome) :
    ∀ fuel i s, (getCommandAux cfg loads ω i fuel s).attempts.length ≤ fuel := by
  intro fuel
  induction fuel with
  | zero => intro i s; simp [getCommandAux]
  | succ n ih =>
    intro i s
    simp only [getCommandAux]
    cases ω i with
    | success t => simp
    | failure msg =>
      cases h : handleFailure cfg s msg with
      | some s2 =>
        simpa [h] using Nat.succ_le_succ (ih (i + 1) s2)
      | none => simp [h]

/-- The attempt loop always returns a CONTINUE or PAUSE action. -/
theorem getCommandAux_action (cfg : GmCfg) (loads : String → Option PyDict)
    (ω : ℕ → GmOutcome) :
    ∀ fuel i s, (getCommandAux cfg loads ω i fuel s).result.1 = "CONTINUE" ∨
      (getCommandAux cfg loads ω i fuel s).result.1 = "PAUSE" := by
  intro fuel
  induction fuel with
  | zero => intro i s; simp [getCommandAux]
  | succ n ih =>
    intro i s
    simp only [getCommandAux]
    cases ω i with
    | success t => exact parse_response_action loads t
    | failure msg =>
      cases h : handleFailure cfg s msg with
      | some s2 => simpa [h] using ih (i + 1) s2
      | none => simp [h]

/-- When no request succeeds, the attempt loop ends in one of the code's two
exhaustion returns. -/
theorem getCommandAux_all_fail (cfg : GmCfg) (loads : String → Option PyDict)
    (ω : ℕ → GmOutcome) :
    ∀ fuel i s, (∀ j t, ω j ≠ GmOutcome.success t) →
      (getCommandAux cfg loads ω i fuel s).result = ("CONTINUE", JVal.str "Failed") ∨
      (getCommandAux cfg loads ω i fuel s).result = ("CONTINUE", JVal.str "All APIs exhausted") := by
  intro fuel
  induction fuel with
  | zero => intro i s _; simp [getCommandAux]
  | succ n ih =>
    intro i s hfail
    simp only [getCommandAux]
    cases hω : ω i with
    | success t => exact absurd hω (hfail i t)
    | failure msg =>
      cases h : handleFailure cfg s msg with
      | some s2 => simpa [h] using ih (i + 1) s2 hfail
      | none => simp [h]

/-- Claim C6 (amended): every evaluation issues at most
`|credentials| × |models|` request attempts and returns a defined
(action, reason) pair whose action is CONTINUE or PAUSE; and when no attempt
succeeds it returns `('CONTINUE', 'Failed')` after the full sweep, or
`('CONTINUE', 'All APIs exhausted')` when a quota failure hits at the last
credential and model. -/
theorem C6_sweep_bounded (cfg : GmCfg) (loads : String → Option PyDict)
    (ω : ℕ → GmOutcome) (s : RotSt) :
    (get_command cfg loads ω s).attempts.length ≤ cfg.numKeys * cfg.numModels ∧
    ((get_command cfg loads ω s).result.1 = "CONTINUE" ∨
      (get_command cfg loads ω s).result.1 = "PAUSE") ∧
    ((∀ j t, ω j ≠ GmOutcome.success t) →
      (get_command cfg loads ω s).result = ("CONTINUE", JVal.str "Failed") ∨
      (get_command cfg loads ω s).result = ("CONTINUE", JVal.str "All APIs exhausted")) :=
  ⟨getCommandAux_attempts_le cfg loads ω _ 0 s,
   getCommandAux_action cfg loads ω _ 0 s,
   fun hfail => getCommandAux_all_fail cfg loads ω _ 0 s hfail⟩

/-- Counterexample to claim C6 as stated: with one credential and one model,
a sweep in which the single attempt fails with a transient error completes
without a successful call, yet the code returns `('CONTINUE', 'Failed')`,
not `(CONTINUE, "all endpoints exhausted")`. -/
theorem C6_counterexample :
    (get_command ⟨1, 1⟩ (fun _ => none) (fun _ => GmOutcome.failure "boom") ⟨0, 0⟩).result
      = ("CONTINUE", JVal.str "Failed") ∧
    (("CONTINUE", JVal.str "Failed") : String × JVal)
      ≠ ("CONTINUE", JVal.str "all endpoints exhausted") := by
  decide

/-- Witness for C6 at a concrete pool and outcome sequence. -/
theorem C6_witness :
    (get_command ⟨1, 1⟩ (fun _ => none) (fun _ => GmOutcome.failure "boom") ⟨0, 0⟩).result
      = ("CONTINUE", JVal.str "Failed") ∨
    (get_command ⟨1, 1⟩ (fun _ => none) (fun _ => GmOutcome.failure "boom") ⟨0, 0⟩).result
      = ("CONTINUE", JVal.str "All APIs exhausted") :=
  (C6_sweep_bounded ⟨1, 1⟩ (fun _ => none) (fun _ => GmOutcome.failure "boom") ⟨0, 0⟩).2.2
    (fun _ _ h => GmOutcome.noConfusion h)

/-- Claim C7 (amended): each failed attempt changes the rotation state
exactly as the failure class dictates — not-found and transient errors
advance the model index (modulo the model count) under the same credential;
a quota error advances to the next model when models remain, else to the
next credential with the model index reset to the first model when
credentials remain, and at the last model of the last credential performs no
rotation and ends the sweep. -/
theorem C7_failure_rotation (cfg : GmCfg) (s : RotSt) (msg : String) :
    handleFailure cfg s msg = specAmendedFailStep cfg s (classifyError msg) := by
  unfold handleFailure specAmendedFailStep classifyError rotate_model rotate_api
  by_cases hnf : is_not_found msg
  · simp [hnf]
  · by_cases hrl : is_rate_limit msg
    · simp only [hnf, hrl, Bool.false_eq_true, if_false, if_true]
      by_cases h1 : s.model + 1 < cfg.numModels
      · have h1' : s.model < cfg.numModels - 1 := by omega
        rw [if_pos h1', if_pos h1, Nat.mod_eq_of_lt h1]
      · have h1' : ¬ s.model < cfg.numModels - 1 := by omega
        rw [if_neg h1', if_neg h1]
        by_cases h2 : s.api + 1 < cfg.numKeys
        · have h2' : s.api < cfg.numKeys - 1 := by omega
          rw [if_pos h2', if_pos h2, Nat.mod_eq_of_lt h2]
        · have h2' : ¬ s.api < cfg.numKeys - 1 := by omega
          rw [if_neg h2', if_neg h2]
    · simp [hnf, hrl]

/-- Counterexample to claim C7 as stated: with two credentials and one
model, a quota-exhausted failure at the second credential (model index
already at the last model) does not advance to the next credential as the
claim dictates — the code performs no rotation and ends the sweep. -/
theorem C7_counterexample :
    handleFailure ⟨2, 1⟩ ⟨1, 0⟩ "quota" = none ∧
    specDictatedFailStep ⟨2, 1⟩ ⟨1, 0⟩ (classifyError "quota") = some ⟨0, 0⟩ ∧
    (none : Option RotSt) ≠ some (⟨0, 0⟩ : RotSt) := by
  decide

/-- Claim C8 (amended): an advisory response text from which no valid result
can be parsed yields a CONTINUE fallback — `('CONTINUE', 'Parse fallback')`
when the brace pattern finds no match, the parsed object has no action key,
or the action string is not CONTINUE/PAUSE after uppercasing; and
`('CONTINUE', 'Parse error')` when the chunk fails to parse as JSON or the
action value is not a string — and in every case the successful request ends
the sweep at once: no further attempt follows, whatever `parse_response`
returned. -/
theorem C8_parse_fallback_no_retry (loads : String → Option PyDict) (text : String)
    (cfg : GmCfg) (ω : ℕ → GmOutcome) (i fuel : ℕ) (s : RotSt)
    (hω : ω i = GmOutcome.success text) :
    (braceMatch text.toList = none →
      parse_response loads text = ("CONTINUE", JVal.str "Parse fallback")) ∧
    (∀ chunk, braceMatch text.toList = some chunk →
      loads (String.mk (replaceApos chunk)) = none →
      parse_response loads text = ("CONTINUE", JVal.str "Parse error")) ∧
    (∀ chunk data, braceMatch text.toList = some chunk →
      loads (String.mk (replaceApos chunk)) = some data →
      data "action" = none →
      parse_response loads text = ("CONTINUE", JVal.str "Parse fallback")) ∧
    (∀ chunk data a, braceMatch text.toList = some chunk →
      loads (String.mk (replaceApos chunk)) = some data →
      data "action" = some (JVal.str a) →
      pyUpper a ≠ "CONTINUE" → pyUpper a ≠ "PAUSE" →
      parse_response loads text = ("CONTINUE", JVal.str "Parse fallback")) ∧
    (∀ chunk data v, braceMatch text.toList = some chunk →
      loads (String.mk (replaceApos chunk)) = some data →
      data "action" = some v → (∀ a, v ≠ JVal.str a) →
      parse_response loads text = ("CONTINUE", JVal.str "Parse error")) ∧
    getCommandAux cfg loads ω i (fuel + 1) s = ⟨parse_response loads text, s, [s]⟩ := by
  refine ⟨?_, ?_, ?_, ?_, ?_, ?_⟩
  · intro h
    have h' : braceMatch text.data = none := h
    simp [parse_response, h']
  · intro chunk h1 h2
    have h1' : braceMatch text.data = some chunk := h1
    simp [parse_response, h1', h2]
  · intro chunk data h1 h2 h3
    have h1' : braceMatch text.data = some chunk := h1
    simp [parse_response, h1', h2, h3]
  · intro chunk data a h1 h2 h3 h4 h5
    have h1' : braceMatch text.data = some chunk := h1
    simp [parse_response, h1', h2, h3, h4, h5]
  · intro chunk data v h1 h2 h3 h4
    have h1' : braceMatch text.data = some chunk := h1
    cases v with
    | str a => exact absurd rfl (h4 a)
    | num q => simp [parse_response, h1, h1', h2, h3]
    | bool b => simp [parse_response, h1, h1', h2, h3]
    | null => simp [parse_response, h1, h1', h2, h3]
  · simp [getCommandAux, hω]

/-- Counterexample to claim C8 as stated: the text `{:}` contains no
parseable `{action, reason}` structure (the brace chunk is not valid JSON,
so `json.loads` raises), yet the attempt yields
`('CONTINUE', 'Parse error')`, not `(CONTINUE, "parse fallback")`. -/
theorem C8_counterexample :
    parse_response (fun _ => none) "\x7b:\x7d" = ("CONTINUE", JVal.str "Parse error") ∧
    (("CONTINUE", JVal.str "Parse error") : String × JVal)
      ≠ ("CONTINUE", JVal.str "parse fallback") := by
  decide

/-- Witness for C8: a braceless response text falls back, and the sweep
records exactly one attempt. -/
theorem C8_witness :
    parse_response (fun _ => none) "hello" = ("CONTINUE", JVal.str "Parse fallback") ∧
    getCommandAux ⟨1, 1⟩ (fun _ => none) (fun _ => GmOutcome.success "hello") 0 1 ⟨0, 0⟩
      = ⟨parse_response (fun _ => none) "hello", ⟨0, 0⟩, [⟨0, 0⟩]⟩ :=
  ⟨(C8_parse_fallback_no_retry (fun _ => none) "hello" ⟨1, 1⟩
      (fun _ => GmOutcome.success "hello") 0 0 ⟨0, 0⟩ rfl).1 (by decide),
   (C8_parse_fallback_no_retry (fun _ => none) "hello" ⟨1, 1⟩
      (fun _ => GmOutcome.success "hello") 0 0 ⟨0, 0⟩ rfl).2.2.2.2.2⟩

/-- A failure that is not-found or not rate-limited advances only the model
index, modulo the model count. -/
theorem handleFailure_model_only (cfg : GmCfg) (s : RotSt) (msg : String)
    (h : is_not_found msg = true ∨ is_rate_limit msg = false) :
    handleFailure cfg s msg = some ⟨s.api, (s.model + 1) % cfg.numModels⟩ := by
  unfold handleFailure rotate_model
  rcases h with h | h
  · simp [h]
  · by_cases hnf : is_not_found msg <;> simp [hnf, h]

/-- A sweep whose failures are all not-found or transient stays on the same
credential for its whole length, cycling through the model indices modulo
the model count, and ends with `('CONTINUE', 'Failed')`. -/
theorem getCommandAux_model_sweep (cfg : GmCfg) (loads : String → Option PyDict)
    (ω : ℕ → GmOutcome) :
    ∀ fuel i s, s.model < cfg.numModels →
      (∀ j t, ω j ≠ GmOutcome.success t) →
      (∀ j msg, ω j = GmOutcome.failure msg →
        is_not_found msg = true ∨ is_rate_limit msg = false) →
      getCommandAux cfg loads ω i fuel s =
        ⟨("CONTINUE", JVal.str "Failed"),
         ⟨s.api, (s.model + fuel) % cfg.numModels⟩,
         (List.range fuel).map (fun j => ⟨s.api, (s.model + j) % cfg.numModels⟩)⟩ := by
  intro fuel
  induction fuel with
  | zero =>
    intro i s hm _ _
    simp [getCommandAux, Nat.mod_eq_of_lt hm]
  | succ n ih =>
    intro i s hm hfail hclass
    have hM : 0 < cfg.numModels := lt_of_le_of_lt (Nat.zero_le _) hm
    obtain ⟨a, m⟩ := s
    cases hω : ω i with
    | success t => exact absurd hω (hfail i t)
    | failure msg =>
      have hstep := handleFailure_model_only cfg ⟨a, m⟩ msg (hclass i msg hω)
      have hrec := ih (i + 1) ⟨a, (m + 1) % cfg.numModels⟩ (Nat.mod_lt _ hM) hfail hclass
      simp only [getCommandAux, hω, hstep, hrec]
      simp only [GmRun.mk.injEq, true_and]
      constructor
      · have harith : m + 1 + n = m + (n + 1) := by omega
        rw [RotSt.mk.injEq]
        exact ⟨rfl, by rw [Nat.mod_add_mod, harith]⟩
      · rw [List.range_succ_eq_map, List.map_cons, List.map_map]
        have hhead : (⟨a, m⟩ : RotSt) = ⟨a, (m + 0) % cfg.numModels⟩ := by
          rw [RotSt.mk.injEq]
          exact ⟨rfl, by rw [Nat.add_zero, Nat.mod_eq_of_lt hm]⟩
        have hfun : (fun j => (⟨a, ((m + 1) % cfg.numModels + j) % cfg.numModels⟩ : RotSt))
            = ((fun j => (⟨a, (m + j) % cfg.numModels⟩ : RotSt)) ∘ Nat.succ) := by
          funext j
          simp only [Function.comp_apply]
          rw [RotSt.mk.injEq]
          have harith : m + 1 + j = m + (j + 1) := by omega
          exact ⟨rfl, by rw [Nat.mod_add_mod, harith]⟩
        rw [hhead, hfun]

/-- Claim C10: the credential index changes only on a quota-exhausted
failure with the model index already at the last model; a not-found or
transient failure advances the model index modulo the model count with the
credential unchanged; hence a sweep experiencing only not-found or transient
failures issues all `|credentials| × |models|` attempts on the starting
credential, cycling its models, and never tries any other credential. -/
theorem C10_credential_stability (cfg : GmCfg) (loads : String → Option PyDict)
    (ω : ℕ → GmOutcome) (s : RotSt) (hm : s.model < cfg.numModels)
    (hfail : ∀ j t, ω j ≠ GmOutcome.success t)
    (hclass : ∀ j msg, ω j = GmOutcome.failure msg →
      is_not_found msg = true ∨ is_rate_limit msg = false) :
    (∀ st msg st', st.model < cfg.numModels →
      handleFailure cfg st msg = some st' → st'.api ≠ st.api →
      is_not_found msg = false ∧ is_rate_limit msg = true ∧
        st.model = cfg.numModels - 1) ∧
    (∀ st msg, (is_not_found msg = true ∨ is_rate_limit msg = false) →
      handleFailure cfg st msg = some ⟨st.api, (st.model + 1) % cfg.numModels⟩) ∧
    (get_command cfg loads ω s).finalState.api = s.api ∧
    (get_command cfg loads ω s).result = ("CONTINUE", JVal.str "Failed") ∧
    (get_command cfg loads ω s).attempts =
      (List.range (cfg.numKeys * cfg.numModels)).map
        (fun j => ⟨s.api, (s.model + j) % cfg.numModels⟩) := by
  have hsweep := getCommandAux_model_sweep cfg loads ω (cfg.numKeys * cfg.numModels)
    0 s hm hfail hclass
  refine ⟨?_, ?_, ?_, ?_, ?_⟩
  · intro st msg st' hstm hstep hne
    unfold handleFailure rotate_model rotate_api at hstep
    by_cases hnf : is_not_found msg
    · rw [if_pos hnf] at hstep
      obtain rfl := Option.some.inj hstep
      exact absurd rfl hne
    · rw [if_neg hnf] at hstep
      by_cases hrl : is_rate_limit msg
      · rw [if_pos hrl] at hstep
        by_cases h1 : st.model < cfg.numModels - 1
        · rw [if_pos h1] at hstep
          obtain rfl := Option.some.inj hstep
          exact absurd rfl hne
        · exact ⟨by simpa using hnf, hrl, by omega⟩
      · rw [if_neg hrl] at hstep
        obtain rfl := Option.some.inj hstep
        exact absurd rfl hne
  · intro st msg h
    exact handleFailure_model_only cfg st msg h
  · unfold get_command
    rw [hsweep]
  · unfold get_command
    rw [hsweep]
  · unfold get_command
    rw [hsweep]

/-- Witness for C10: two credentials, three models, every attempt failing
with a not-found error — all six attempts stay on credential 0, cycling the
models from the starting index. -/
theorem C10_witness :
    (get_command ⟨2, 3⟩ (fun _ => none) (fun _ => GmOutcome.failure "404") ⟨0, 1⟩).finalState.api
      = 0 ∧
    (get_command ⟨2, 3⟩ (fun _ => none) (fun _ => GmOutcome.failure "404") ⟨0, 1⟩).attempts
      = (List.range 6).map (fun j => ⟨0, (1 + j) % 3⟩) := by
  have h := C10_credential_stability ⟨2, 3⟩ (fun _ => none)
    (fun _ => GmOutcome.failure "404") ⟨0, 1⟩ (by decide)
    (fun _ _ hj => GmOutcome.noConfusion hj)
    (fun _ msg hj => by cases hj; left; decide)
  exact ⟨h.2.2.1, h.2.2.2.2⟩

/-! ## Theorems: quant engine -/

/-- Unfolding of the `Target` column over the first of two adjacent closes. -/
theorem targetColumn_cons_cons (a b : ℚ) (l : List ℚ) :
    targetColumn (a :: b :: l) = (if a < b then 1 else 0) :: targetColumn (b :: l) := by
  simp [targetColumn, shiftNeg1]

/-- The `Target` column has one entry per row. -/
theorem targetColumn_length (closes : List ℚ) :
    (targetColumn closes).length = closes.length := by
  cases closes with
  | nil => rfl
  | cons a l => simp [targetColumn, shiftNeg1]

/-- Entry `i` of the `Target` column compares close `i` with close `i+1`. -/
theorem targetColumn_label (closes : List ℚ) :
    ∀ i a b, closes[i]? = some a → closes[i + 1]? = some b →
      (targetColumn closes)[i]? = some (if a < b then 1 else 0) := by
  induction closes with
  | nil => intro i a b ha _; simp at ha
  | cons c rest ih =>
    intro i a b ha hb
    cases rest with
    | nil =>
      cases i <;> simp_all
    | cons d rest2 =>
      rw [targetColumn_cons_cons]
      cases i with
      | zero =>
        simp only [List.getElem?_cons_succ, List.getElem?_cons_zero,
          Option.some.injEq] at ha hb
        subst ha
        subst hb
        simp
      | succ k =>
        rw [List.getElem?_cons_succ] at ha hb
        rw [List.getElem?_cons_succ]
        exact ih k a b ha hb

/-- Claim C9: the pipeline labels row `i` with `1` exactly when the next
row's close is strictly greater than row `i`'s close and `0` otherwise, the
final row (which has no next row) is excluded from the training set, and the
pipeline returns `None` — no signal, not an error — whenever fewer than 50
labeled rows remain (and a signal otherwise). -/
theorem C9_labeling_and_guard (classifier : List (FRow × ℕ) → FRow → ℕ × ℚ)
    (df : List FRow) :
    (∀ i a b, df[i]? = some a → df[i + 1]? = some b →
      (targetColumn (df.map (fun r => r.close)))[i]? =
        some (if a.close < b.close then 1 else 0)) ∧
    ((df.zip (targetColumn (df.map (fun r => r.close)))).dropLast).length
      = df.length - 1 ∧
    (df.length - 1 < 50 → train_and_predict classifier df = none) ∧
    (¬ df.length - 1 < 50 → (train_and_predict classifier df).isSome = true) := by
  have hlen : ((df.zip (targetColumn (df.map (fun r => r.close)))).dropLast).length
      = df.length - 1 := by
    rw [List.length_dropLast, List.length_zip, targetColumn_length, List.length_map,
      Nat.min_self]
  refine ⟨?_, hlen, ?_, ?_⟩
  · intro i a b ha hb
    apply targetColumn_label
    · rw [List.getElem?_map, ha]
      rfl
    · rw [List.getElem?_map, hb]
      rfl
  · intro hlt
    simp only [train_and_predict]
    rw [if_pos (by rw [hlen]; exact hlt)]
  · intro hge
    simp only [train_and_predict]
    rw [if_neg (by rw [hlen]; exact hge)]
    have hne : df ≠ [] := by
      intro hnil
      subst hnil
      simp at hge
    obtain ⟨x, hx⟩ := Option.isSome_iff_exists.mp (List.getLast?_isSome.mpr hne)
    rw [hx]
    rfl

/-- Witness for C9: on a three-row frame the first label compares closes 1
and 3 (label 1), and training is refused (2 labeled rows < 50). -/
theorem C9_witness :
    (targetColumn ([⟨"a", 1, 1, 1, 1, 1, 1⟩, ⟨"b", 3, 3, 3, 3, 3, 3⟩,
        ⟨"c", 2, 2, 2, 2, 2, 2⟩].map (fun r => FRow.close r)))[0]? = some 1 ∧
    train_and_predict (fun _ _ => (1, 1))
      [⟨"a", 1, 1, 1, 1, 1, 1⟩, ⟨"b", 3, 3, 3, 3, 3, 3⟩, ⟨"c", 2, 2, 2, 2, 2, 2⟩]
      = none := by
  have h := C9_labeling_and_guard (fun _ _ => (1, 1))
    [⟨"a", 1, 1, 1, 1, 1, 1⟩, ⟨"b", 3, 3, 3, 3, 3, 3⟩, ⟨"c", 2, 2, 2, 2, 2, 2⟩]
  constructor
  · have h0 := h.1 0 ⟨"a", 1, 1, 1, 1, 1, 1⟩ ⟨"b", 3, 3, 3, 3, 3, 3⟩ rfl rfl
    rw [if_pos (by norm_num)] at h0
    exact h0
  · exact h.2.2.1 (by norm_num)

end HFT
